import Mathlib

/-
  Shallow embedding of the VictorUno agent core
  (src/victoruno/core/agent.py, src/victoruno/integrations/documents.py,
  src/victoruno/integrations/chrome.py).

  External capabilities (language model, browser backends, the file
  system and the per-format document extractors) are passed in as
  oracles returning `Except String`, modelling Python calls that may
  raise; the embedded functions are total, mirroring the try/except
  boundaries of the source.
-/

/-- Python single-quote character, kept out of string literals. -/
def apos : String := String.mk [Char.ofNat 39]

/-- ASCII model of Python str.lower applied to one character. -/
def py_lower_char (c : Char) : Char :=
  if c.toNat ≥ 65 && c.toNat ≤ 90 then Char.ofNat (c.toNat + 32) else c

/-- ASCII model of Python str.lower. -/
def py_lower (s : String) : String := String.mk (s.data.map py_lower_char)

/-- Python whitespace set used by str.strip and str.split. -/
def is_py_space (c : Char) : Bool :=
  c == ' ' || c == '\t' || c == '\n' || c == '\r' || c == '\x0b' || c == '\x0c'

/-- Model of Python str.strip with no arguments. -/
def py_strip (s : String) : String :=
  String.mk (((s.data.dropWhile is_py_space).reverse.dropWhile is_py_space).reverse)

/-- Left-to-right non-overlapping replacement scan, as in Python
str.replace. The fuel argument is initialised to the length of the
scanned list; one fuel unit is spent per scan step and every step
consumes at least one character, so the fuel never runs out on the
initial call. An empty pattern is treated as no match (the source only
replaces non-empty literals). -/
def replGo (pat repl : List Char) : Nat → List Char → List Char
  | _, [] => []
  | 0, s => s
  | fuel + 1, c :: cs =>
    if !pat.isEmpty && pat.isPrefixOf (c :: cs) then
      repl ++ replGo pat repl fuel (cs.drop (pat.length - 1))
    else
      c :: replGo pat repl fuel cs

/-- Model of Python str.replace for a non-empty pattern. -/
def py_replace (s pat repl : String) : String :=
  String.mk (replGo pat.data repl.data s.data.length s.data)

/-- Occurrence test: does the second list contain the first as a
contiguous sublist?  Models the Python `in` operator on strings. -/
def containsSub (pat : List Char) : List Char → Bool
  | [] => pat.isEmpty
  | c :: cs => pat.isPrefixOf (c :: cs) || containsSub pat cs

/-- Python `pat in s` on strings. -/
def str_contains (s pat : String) : Bool := containsSub pat.data s.data

/-- Case-insensitive containment (both sides lowercased). -/
def contains_ci (s pat : String) : Bool := str_contains (py_lower s) (py_lower pat)

/-- Word count of Python str.split with no arguments: number of maximal
runs of non-whitespace characters. -/
def count_words_go : List Char → Bool → Nat
  | [], _ => 0
  | c :: cs, at_start =>
    if is_py_space c then count_words_go cs true
    else (if at_start then 1 else 0) + count_words_go cs false

/-- Python len(s.split()). -/
def count_words (s : String) : Nat := count_words_go s.data true

/-- Final path component, as in pathlib Path.name. -/
def path_name (p : String) : String :=
  String.mk ((p.data.reverse.takeWhile (fun c => c != '/')).reverse)

/-- Lowercased extension of the final path component, approximating
pathlib Path.suffix followed by str.lower (agent code line 61). -/
def ext_of (p : String) : String :=
  let n := (path_name p).data
  if n.contains '.' then
    py_lower (String.mk ('.' :: (n.reverse.takeWhile (fun c => c != '.')).reverse))
  else ""

/-- Message roles: HumanMessage, AIMessage, SystemMessage in the source. -/
inductive Role
  | user
  | assistant
  | system
  deriving DecidableEq

/-- A chat message (role plus content), per spec section 3. -/
structure Message where
  role : Role
  content : String
  deriving DecidableEq

/-- AgentState TypedDict from agent.py lines 34-40.  The context dict is
modelled as an association list of string keys to boolean values, which
covers the only write the core performs (document_processed := true). -/
structure AgentState where
  messages : List Message
  current_task : Option String
  context : List (String × Bool)
  documents : List String
  web_content : Option String
  deriving DecidableEq

/-- A web search result dict {title, url, description}. -/
structure SearchResult where
  title : String
  url : String
  description : String
  deriving DecidableEq

/-- Keywords routed to the documents branch (agent.py line 107). -/
def doc_keywords : List String := ["document", "file", "upload"]

/-- Keywords routed to the web_research branch (agent.py line 109). -/
def web_keywords : List String := ["search", "research", "browse", "web"]

/-- VictorUnoAgent._route_request, agent.py lines 100-112. -/
def route_request (st : AgentState) : String :=
  match st.messages.getLast? with
  | none => "chat"
  | some m =>
    let t := py_lower m.content
    if doc_keywords.any (fun k => str_contains t k) then "documents"
    else if web_keywords.any (fun k => str_contains t k) then "web_research"
    else "chat"

/-- Modelled from the spec (section 4.1): the router destination as a
function of the lowercase text of the last message alone. -/
def router_destination_spec (t : String) : String :=
  if doc_keywords.any (fun k => str_contains t k) then "documents"
  else if web_keywords.any (fun k => str_contains t k) then "web_research"
  else "chat"

/-- VictorUnoAgent._process_input, agent.py lines 114-123. -/
def process_input (st : AgentState) : AgentState :=
  match st.messages.getLast? with
  | none => st
  | some m => { st with current_task := some m.content }

/-- Python dict assignment d[k] = v on the association-list model. -/
def dict_insert (ctx : List (String × Bool)) (k : String) (v : Bool) : List (String × Bool) :=
  if ctx.any (fun p => p.1 == k) then
    ctx.map (fun p => if p.1 == k then (k, v) else p)
  else ctx ++ [(k, v)]

/-- VictorUnoAgent._handle_documents, agent.py lines 177-185. -/
def handle_documents (st : AgentState) : AgentState :=
  { st with context := dict_insert st.context "document_processed" true }

/-- Query extraction of _web_research, agent.py line 195: remove the
literal substring "search", then "research", then strip. -/
def extract_query (text : String) : String :=
  py_strip (py_replace (py_replace text "search" "") "research" "")

/-- Result formatting loop of _web_research, agent.py lines 202-206,
with one-based numbering from enumerate(results, 1). -/
def format_research_from (i : Nat) : List SearchResult → String
  | [] => ""
  | r :: rest =>
    Nat.repr i ++ ". " ++ r.title ++ "\n   URL: " ++ r.url ++
    "\n   Description: " ++ r.description ++ "\n\n" ++
    format_research_from (i + 1) rest

/-- VictorUnoAgent._web_research, agent.py lines 187-214.  The search
argument models chrome_integration.search_web; an error value models the
awaited call raising, which the node catches (lines 210-212). -/
def web_research (search : String → Nat → Except String (List SearchResult))
    (st : AgentState) : AgentState :=
  match st.messages.getLast? with
  | none => st
  | some m =>
    let query := extract_query m.content
    match search query 3 with
    | Except.ok rs =>
      { st with web_content := some ("Web search results:\n\n" ++ format_research_from 1 rs) }
    | Except.error e =>
      { st with web_content := some ("Web research encountered an error: " ++ e) }

/-- Python repr of a list of strings, used in the system-message
f-string for state documents. -/
def py_repr_list (l : List String) : String :=
  "[" ++ String.intercalate ", " (l.map (fun s => apos ++ s ++ apos)) ++ "]"

/-- System message composed by _generate_response, agent.py lines 130-144. -/
def system_message (agentName : String) (st : AgentState) : Message :=
  { role := Role.system,
    content :=
      "\nYou are " ++ agentName ++
      ", a personal AI assistant designed to help with research, development, and optimization tasks.\n\nYour capabilities include:\n- Answering questions and providing explanations\n- Analyzing documents and extracting insights\n- Conducting web research\n- Helping with code and development tasks\n- Optimizing workflows and processes\n\nContext from documents: " ++
      py_repr_list st.documents ++ "\nWeb content: " ++
      (st.web_content.getD "None") ++
      "\n\nBe helpful, accurate, and concise in your responses.\n" }

/-- VictorUnoAgent._generate_response, agent.py lines 125-175.  The llm
argument models the language-model invocation of lines 150-165 (both the
LangChain chain and the mock branch); an error value models the call
raising, which the except clause at lines 170-173 converts into an
assistant message. -/
def generate_response (llm : List Message → Except String String)
    (agentName : String) (st : AgentState) : AgentState :=
  match llm (system_message agentName st :: st.messages) with
  | Except.ok r =>
    { st with messages := st.messages ++ [{ role := Role.assistant, content := r }] }
  | Except.error e =>
    { st with messages := st.messages ++
        [{ role := Role.assistant,
           content := "I apologize, but I encountered an error: " ++ e }] }

/-- The compiled workflow walked to completion: process_input, then the
routed branch node, then generate_response (agent.py lines 70-98). -/
def run_workflow (llm : List Message → Except String String)
    (search : String → Nat → Except String (List SearchResult))
    (agentName : String) (st : AgentState) : AgentState :=
  let st1 := process_input st
  let branch := route_request st1
  let st2 :=
    if branch = "documents" then handle_documents st1
    else if branch = "web_research" then web_research search st1
    else st1
  generate_response llm agentName st2

/-- Initial state built by chat, agent.py lines 220-226. -/
def initial_state (message : String) : AgentState :=
  { messages := [{ role := Role.user, content := message }],
    current_task := none, context := [], documents := [], web_content := none }

/-- Last AIMessage of a message list (agent.py lines 235-237). -/
def last_assistant (msgs : List Message) : Option Message :=
  (msgs.filter (fun m => m.role == Role.assistant)).getLast?

/-- Fallback reply of chat when no assistant message exists
(agent.py line 239). -/
def fallback_reply : String :=
  "I" ++ apos ++ "m sorry, I couldn" ++ apos ++ "t generate a response."

/-- VictorUnoAgent.chat, agent.py lines 216-243.  The run argument
models app.ainvoke on the initial state; an error value models any
exception escaping the workflow machinery, which the except clause at
lines 241-243 turns into an error-describing string. -/
def chat (run : AgentState → Except String AgentState) (message : String) : String :=
  match run (initial_state message) with
  | Except.ok result =>
    match last_assistant result.messages with
    | some m => m.content
    | none => fallback_reply
  | Except.error e => "I encountered an error: " ++ e

/-- Result dict of DocumentProcessor.process_document, documents.py
lines 80-106. -/
structure DocResult where
  filename : String
  file_path : String
  file_size : Nat
  file_type : String
  mime_type : Option String
  content : String
  word_count : Nat
  char_count : Nat
  success : Bool
  message : String
  deriving DecidableEq

/-- File-system and extractor oracle for the document processor.  The
extract field models the per-format extraction dispatch of documents.py
lines 64-78 (PDF, DOCX, text, HTML helpers); an error value models any
of those helpers raising. -/
structure FileSystem where
  fileExists : String → Bool
  fileSize : String → Nat
  extract : String → Except String String
  mimeGuess : String → Option String

/-- Failure dict built by the except clause of process_document,
documents.py lines 93-106. -/
def doc_error_result (path e : String) : DocResult :=
  { filename := path_name path, file_path := path, file_size := 0,
    file_type := "unknown", mime_type := none, content := "",
    word_count := 0, char_count := 0, success := false,
    message := "Error processing document: " ++ e }

/-- DocumentProcessor.process_document, documents.py lines 49-106. -/
def process_document (fs : FileSystem) (maxFileSize : Nat) (path : String) : DocResult :=
  if fs.fileExists path = false then
    doc_error_result path ("File not found: " ++ path)
  else if fs.fileSize path > maxFileSize then
    doc_error_result path ("File too large: " ++ Nat.repr (fs.fileSize path) ++
      " bytes (max: " ++ Nat.repr maxFileSize ++ ")")
  else
    match fs.extract path with
    | Except.error e => doc_error_result path e
    | Except.ok content =>
      { filename := path_name path, file_path := path,
        file_size := fs.fileSize path, file_type := ext_of path,
        mime_type := fs.mimeGuess path, content := content,
        word_count := if content.data.isEmpty then 0 else count_words content,
        char_count := if content.data.isEmpty then 0 else content.data.length,
        success := true,
        message := "Successfully processed " ++ path_name path }

/-- VictorUnoAgent.process_document facade, agent.py lines 250-266. -/
def process_document_facade (fs : FileSystem) (maxFileSize : Nat) (path : String) : String :=
  let result := process_document fs maxFileSize path
  if result.success then
    "Successfully processed " ++ apos ++ result.filename ++ apos ++
    ". Content: " ++ Nat.repr result.word_count ++ " words, " ++
    Nat.repr result.char_count ++
    " characters. The document content is now available for our conversation."
  else
    result.message

/-- Result formatting loop of web_search, agent.py lines 279-284; the
description line is omitted when the description is empty. -/
def format_search_from (i : Nat) : List SearchResult → String
  | [] => ""
  | r :: rest =>
    Nat.repr i ++ ". **" ++ r.title ++ "**\n   URL: " ++ r.url ++ "\n" ++
    (if r.description == "" then "" else "   Description: " ++ r.description ++ "\n") ++
    "\n" ++ format_search_from (i + 1) rest

/-- VictorUnoAgent.web_search facade, agent.py lines 268-290.  The
search argument models chrome_integration.search_web; an error value
models the awaited call raising, caught at lines 288-290. -/
def web_search (search : String → Nat → Except String (List SearchResult))
    (query : String) : String :=
  match search query 5 with
  | Except.error e => "Error performing web search: " ++ e
  | Except.ok [] => "No search results found."
  | Except.ok rs =>
    "Web search results for " ++ apos ++ query ++ apos ++ ":\n\n" ++
    format_search_from 1 rs

/-- Backend availability flags and backend sessions for
ChromeIntegration.  The run fields model the browser sessions of
_search_with_playwright and _search_with_selenium (chrome.py lines
69-113 and 129-195); an error value models the session raising, which
each helper catches internally. -/
structure ChromeBackend where
  playwrightAvailable : Bool
  seleniumAvailable : Bool
  runPlaywright : String → Nat → Except String (List SearchResult)
  runSelenium : String → Nat → Except String (List SearchResult)

/-- Synthetic result built by the except clauses of the two backend
helpers (chrome.py lines 117-121 and 199-203). -/
def search_error_result (e : String) : SearchResult :=
  { title := "Search Error", url := "", description := "Error during search: " ++ e }

/-- ChromeIntegration._search_with_playwright, chrome.py lines 65-123. -/
def search_with_playwright (b : ChromeBackend) (q : String) (n : Nat) : List SearchResult :=
  match b.runPlaywright q n with
  | Except.ok rs => rs
  | Except.error e => [search_error_result e]

/-- ChromeIntegration._search_with_selenium, chrome.py lines 125-205. -/
def search_with_selenium (b : ChromeBackend) (q : String) (n : Nat) : List SearchResult :=
  match b.runSelenium q n with
  | Except.ok rs => rs
  | Except.error e => [search_error_result e]

/-- Synthetic result returned when neither backend is installed
(chrome.py lines 52-56). -/
def no_backend_result : SearchResult :=
  { title := "Chrome Integration Not Available", url := "",
    description := "Neither Selenium nor Playwright is installed. Please install one of them for web search functionality." }

/-- ChromeIntegration.search_web, chrome.py lines 44-63.  The outer
except clause of lines 57-63 is a backstop that is unreachable in this
model because every branch is total. -/
def search_web (b : ChromeBackend) (q : String) (n : Nat) : List SearchResult :=
  if b.playwrightAvailable then search_with_playwright b q n
  else if b.seleniumAvailable then search_with_selenium b q n
  else [no_backend_result]

/-
  Helper lemmas shared by the claim theorems below.
-/

/-- Data of a string append is the append of the data lists. -/
theorem str_data_append (s t : String) : (s ++ t).data = s.data ++ t.data := rfl

/-- The empty list is a boolean prefix of every list. -/
theorem nil_isPrefixOf_true (l : List Char) : List.isPrefixOf [] l = true := by
  cases l <;> rfl

/-- A boolean prefix of a list stays a prefix after appending on the right. -/
theorem isPrefixOf_append_right :
    ∀ (p s t : List Char), p.isPrefixOf s = true → p.isPrefixOf (s ++ t) = true
  | [], s, t, _ => nil_isPrefixOf_true (s ++ t)
  | _ :: _, [], _, h => by simp [List.isPrefixOf] at h
  | a :: p, b :: s, t, h => by
    simp only [List.isPrefixOf, List.cons_append, Bool.and_eq_true] at h ⊢
    exact ⟨h.1, isPrefixOf_append_right p s t h.2⟩

/-- The empty pattern occurs in every list. -/
theorem containsSub_nil (s : List Char) : containsSub [] s = true := by
  cases s <;> simp [containsSub, List.isPrefixOf, List.isEmpty]

/-- An occurrence in a list survives appending on the right. -/
theorem containsSub_append_left :
    ∀ (pat a b : List Char), containsSub pat a = true → containsSub pat (a ++ b) = true
  | pat, [], b, h => by
    have hp : pat = [] := by
      cases pat with
      | nil => rfl
      | cons c cs => simp [containsSub, List.isEmpty] at h
    subst hp
    exact containsSub_nil b
  | pat, c :: a, b, h => by
    simp only [containsSub, Bool.or_eq_true] at h
    rcases h with h | h
    · simp only [List.cons_append, containsSub, Bool.or_eq_true]
      exact Or.inl (isPrefixOf_append_right pat (c :: a) b (by simpa using h))
    · simp only [List.cons_append, containsSub, Bool.or_eq_true]
      exact Or.inr (containsSub_append_left pat a b h)

/-- Lowercasing distributes over string append. -/
theorem py_lower_append (s t : String) : py_lower (s ++ t) = py_lower s ++ py_lower t :=
  congrArg String.mk (List.map_append py_lower_char s.data t.data)

/-- C1: for every state with non-empty messages, the router returns the
destination computed from the lowercase text of the last message alone,
following the spec order (document keywords, then research keywords,
then chat); when both a document keyword and a research keyword occur,
documents wins. -/
theorem route_request_matches_spec (st : AgentState) (h : st.messages ≠ []) :
    route_request st = router_destination_spec (py_lower ((st.messages.getLast h).content)) ∧
    (doc_keywords.any (fun k => str_contains (py_lower ((st.messages.getLast h).content)) k) = true →
      web_keywords.any (fun k => str_contains (py_lower ((st.messages.getLast h).content)) k) = true →
      route_request st = "documents") := by
  have hl := List.getLast?_eq_getLast_of_ne_nil h
  constructor
  · unfold route_request router_destination_spec
    rw [hl]
  · intro h1 _h2
    unfold route_request
    rw [hl]
    simp only [h1, if_true]

/-- Witness for C1 at a concrete state whose last message holds both a
document keyword and a research keyword. -/
theorem route_request_matches_spec_w :
    route_request (AgentState.mk [Message.mk Role.user "search this Document"] none [] [] none) =
      "documents" := by
  have h := route_request_matches_spec
    (AgentState.mk [Message.mk Role.user "search this Document"] none [] [] none) (by decide)
  exact h.2 (by decide) (by decide)

/-- C10: on the state whose messages list is empty, the router is total
and falls back to chat. -/
theorem route_request_empty_chat (st : AgentState) (h : st.messages = []) :
    route_request st = "chat" := by
  unfold route_request
  rw [h]
  rfl

/-- Witness for C10 at the empty initial state. -/
theorem route_request_empty_chat_w :
    route_request (AgentState.mk [] none [] [] none) = "chat" :=
  route_request_empty_chat (AgentState.mk [] none [] [] none) rfl

/-- C2: generate_response appends exactly one assistant message to the
state, whatever the language-model call does: the returned text on
success, an error-describing text when the call raises; the node always
returns normally. -/
theorem generate_response_appends_one (llm : List Message → Except String String)
    (agentName : String) (st : AgentState) :
    (generate_response llm agentName st).messages =
      st.messages ++ [Message.mk Role.assistant
        (match llm (system_message agentName st :: st.messages) with
         | Except.ok r => r
         | Except.error e => "I apologize, but I encountered an error: " ++ e)] := by
  unfold generate_response
  cases hllm : llm (system_message agentName st :: st.messages) <;> simp [hllm]

/-- C3: chat is total and returns, depending on the outcome of the run,
the content of the last assistant message, the fixed fallback string
when no assistant message exists, or an error-describing string when
the run raises. -/
theorem chat_total_spec (run : AgentState → Except String AgentState) (message : String) :
    chat run message =
      match run (initial_state message) with
      | Except.error e => "I encountered an error: " ++ e
      | Except.ok result =>
        match last_assistant result.messages with
        | some m => m.content
        | none => fallback_reply := by
  unfold chat
  cases run (initial_state message) <;> rfl

/-- C5: after process_input runs on the state chat hands to the
workflow, the messages list is non-empty and holds the current user
message. -/
theorem process_input_seeds_messages (message : String) :
    (process_input (initial_state message)).messages = [Message.mk Role.user message] ∧
    (process_input (initial_state message)).messages ≠ [] := by
  constructor <;> simp [process_input, initial_state]

/-- C8: for every state with non-empty messages, process_input keeps
messages, context, documents and web_content unchanged and only sets
current_task to the content of the last message. -/
theorem process_input_frame (st : AgentState) (h : st.messages ≠ []) :
    (process_input st).messages = st.messages ∧
    (process_input st).context = st.context ∧
    (process_input st).documents = st.documents ∧
    (process_input st).web_content = st.web_content ∧
    (process_input st).current_task = some ((st.messages.getLast h).content) := by
  have hl := List.getLast?_eq_getLast_of_ne_nil h
  unfold process_input
  rw [hl]
  exact ⟨rfl, rfl, rfl, rfl, rfl⟩

/-- Witness for C8 at a concrete two-message state. -/
theorem process_input_frame_w :
    (process_input (AgentState.mk
        [Message.mk Role.user "hi", Message.mk Role.assistant "hello"]
        none [("k", true)] ["doc"] (some "w"))).messages =
      [Message.mk Role.user "hi", Message.mk Role.assistant "hello"] ∧
    (process_input (AgentState.mk
        [Message.mk Role.user "hi", Message.mk Role.assistant "hello"]
        none [("k", true)] ["doc"] (some "w"))).context = [("k", true)] ∧
    (process_input (AgentState.mk
        [Message.mk Role.user "hi", Message.mk Role.assistant "hello"]
        none [("k", true)] ["doc"] (some "w"))).documents = ["doc"] ∧
    (process_input (AgentState.mk
        [Message.mk Role.user "hi", Message.mk Role.assistant "hello"]
        none [("k", true)] ["doc"] (some "w"))).web_content = some "w" ∧
    (process_input (AgentState.mk
        [Message.mk Role.user "hi", Message.mk Role.assistant "hello"]
        none [("k", true)] ["doc"] (some "w"))).current_task = some "hello" := by
  have h := process_input_frame (AgentState.mk
    [Message.mk Role.user "hi", Message.mk Role.assistant "hello"]
    none [("k", true)] ["doc"] (some "w")) (by decide)
  exact ⟨h.1, h.2.1, h.2.2.1, h.2.2.2.1, h.2.2.2.2⟩

/-- Counterexample for C4: the query extracted from the last message
"I love researching" is "I love reing", not "I love ing" as claimed,
because the literal "search" is removed first (inside "researching"),
after which no occurrence of "research" remains. -/
theorem web_research_example_counterexample :
    extract_query "I love researching" = "I love reing" ∧
    ¬ (extract_query "I love researching" = "I love ing") := by
  constructor
  · decide
  · decide

/-- C4 (amended): for every non-empty messages list, the web-research
node removes the literal substring "search" and then "research" from
the last message text, trims the result, and calls the search
capability with that query and a result limit of 3; the last message
"I love researching" yields the query "I love reing". -/
theorem web_research_query_amended
    (search : String → Nat → Except String (List SearchResult))
    (st : AgentState) (h : st.messages ≠ []) :
    (web_research search st).web_content =
      some (match search (extract_query ((st.messages.getLast h).content)) 3 with
        | Except.ok rs => "Web search results:\n\n" ++ format_research_from 1 rs
        | Except.error e => "Web research encountered an error: " ++ e) ∧
    extract_query "I love researching" = "I love reing" := by
  have hl := List.getLast?_eq_getLast_of_ne_nil h
  constructor
  · unfold web_research
    rw [hl]
    cases hs : search (extract_query ((st.messages.getLast h).content)) 3 <;> simp [hs]
  · decide

/-- Witness for C4 at a concrete state and a failing search capability. -/
theorem web_research_query_amended_w :
    (web_research (fun _ _ => Except.error "down")
        (AgentState.mk [Message.mk Role.user "search cats"] none [] [] none)).web_content =
      some ("Web research encountered an error: down") ∧
    extract_query "I love researching" = "I love reing" := by
  have h := web_research_query_amended (fun _ _ => Except.error "down")
    (AgentState.mk [Message.mk Role.user "search cats"] none [] [] none) (by decide)
  exact ⟨by rw [h.1]; rfl, h.2⟩

/-- C6: for every file path the file system reports as missing,
process_document returns success false, empty content, zero word and
character counts, and a message containing "not found"
case-insensitively; the facade returns that message verbatim. -/
theorem process_document_missing_file (fs : FileSystem) (maxFileSize : Nat) (path : String)
    (h : fs.fileExists path = false) :
    (process_document fs maxFileSize path).success = false ∧
    (process_document fs maxFileSize path).content = "" ∧
    (process_document fs maxFileSize path).word_count = 0 ∧
    (process_document fs maxFileSize path).char_count = 0 ∧
    contains_ci (process_document fs maxFileSize path).message "not found" = true ∧
    process_document_facade fs maxFileSize path = (process_document fs maxFileSize path).message := by
  have hpd : process_document fs maxFileSize path =
      doc_error_result path ("File not found: " ++ path) := by
    unfold process_document
    rw [h]
    rfl
  refine ⟨by rw [hpd]; rfl, by rw [hpd]; rfl, by rw [hpd]; rfl, by rw [hpd]; rfl, ?_, ?_⟩
  · rw [hpd]
    show contains_ci ("Error processing document: " ++ ("File not found: " ++ path)) "not found" = true
    unfold contains_ci str_contains
    rw [py_lower_append, py_lower_append, str_data_append, str_data_append,
      ← List.append_assoc]
    exact containsSub_append_left _ _ _ (by decide)
  · unfold process_document_facade
    rw [hpd]
    rfl

/-- Witness for C6 at a file system reporting every path missing. -/
theorem process_document_missing_file_w :
    (process_document
        (FileSystem.mk (fun _ => false) (fun _ => 0) (fun _ => Except.error "e") (fun _ => none))
        100 "notes.txt").success = false ∧
    (process_document
        (FileSystem.mk (fun _ => false) (fun _ => 0) (fun _ => Except.error "e") (fun _ => none))
        100 "notes.txt").content = "" ∧
    (process_document
        (FileSystem.mk (fun _ => false) (fun _ => 0) (fun _ => Except.error "e") (fun _ => none))
        100 "notes.txt").word_count = 0 ∧
    (process_document
        (FileSystem.mk (fun _ => false) (fun _ => 0) (fun _ => Except.error "e") (fun _ => none))
        100 "notes.txt").char_count = 0 ∧
    contains_ci (process_document
        (FileSystem.mk (fun _ => false) (fun _ => 0) (fun _ => Except.error "e") (fun _ => none))
        100 "notes.txt").message "not found" = true ∧
    process_document_facade
        (FileSystem.mk (fun _ => false) (fun _ => 0) (fun _ => Except.error "e") (fun _ => none))
        100 "notes.txt" =
      (process_document
        (FileSystem.mk (fun _ => false) (fun _ => 0) (fun _ => Except.error "e") (fun _ => none))
        100 "notes.txt").message :=
  process_document_missing_file
    (FileSystem.mk (fun _ => false) (fun _ => 0) (fun _ => Except.error "e") (fun _ => none))
    100 "notes.txt" rfl

/-- C9: search_web is total; with no backend available it returns the
one-element synthetic unavailability result, and when the invoked
backend raises it returns the one-element Search Error result built
from the exception text. -/
theorem search_web_error_handling (b : ChromeBackend) (q : String) (n : Nat) :
    (b.playwrightAvailable = false → b.seleniumAvailable = false →
      search_web b q n = [no_backend_result]) ∧
    (∀ e, b.playwrightAvailable = true → b.runPlaywright q n = Except.error e →
      search_web b q n = [search_error_result e]) ∧
    (∀ e, b.playwrightAvailable = false → b.seleniumAvailable = true →
      b.runSelenium q n = Except.error e →
      search_web b q n = [search_error_result e]) := by
  refine ⟨?_, ?_, ?_⟩
  · intro h1 h2
    simp [search_web, h1, h2]
  · intro e h1 h2
    simp [search_web, search_with_playwright, h1, h2]
  · intro e h1 h2 h3
    simp [search_web, search_with_selenium, h1, h2, h3]

/-- Witness for C9 at a backend with Selenium only whose session raises. -/
theorem search_web_error_handling_w :
    search_web
      (ChromeBackend.mk false true (fun _ _ => Except.ok []) (fun _ _ => Except.error "boom"))
      "q" 5 = [search_error_result "boom"] :=
  ((search_web_error_handling
      (ChromeBackend.mk false true (fun _ _ => Except.ok []) (fun _ _ => Except.error "boom"))
      "q" 5).2.2) "boom" rfl rfl rfl

/-- C7: the web_search facade is determined by the capability call at
limit 5, returns the fixed no-results string on an empty result
sequence, and on the single result with title T, url U and description
D produces a numbered-list string containing T, U and D in that
relative order. -/
theorem web_search_limit_and_format
    (search : String → Nat → Except String (List SearchResult)) (q : String) :
    (∀ s2 : String → Nat → Except String (List SearchResult),
        search q 5 = s2 q 5 → web_search search q = web_search s2 q) ∧
    (search q 5 = Except.ok [] → web_search search q = "No search results found.") ∧
    (search q 5 = Except.ok [SearchResult.mk "T" "U" "D"] →
      ∃ p1 p2 p3 p4 : List Char,
        (web_search search q).data =
          p1 ++ "T".data ++ p2 ++ "U".data ++ p3 ++ "D".data ++ p4) := by
  refine ⟨?_, ?_, ?_⟩
  · intro s2 he
    unfold web_search
    rw [he]
  · intro he
    unfold web_search
    rw [he]
  · intro he
    refine ⟨("Web search results for " ++ apos ++ q ++ apos ++ ":\n\n" ++
        Nat.repr 1 ++ ". **").data,
      "**\n   URL: ".data, ("\n" ++ "   Description: ").data, ("\n" ++ "\n" ++ "").data, ?_⟩
    have hws : web_search search q =
        "Web search results for " ++ apos ++ q ++ apos ++ ":\n\n" ++
          format_search_from 1 [SearchResult.mk "T" "U" "D"] := by
      unfold web_search
      rw [he]
    rw [hws]
    have hd : ((SearchResult.mk "T" "U" "D").description == "") = false := by decide
    simp only [format_search_from, hd, Bool.false_eq_true, if_false]
    simp only [str_data_append, List.append_assoc]

/-- Witness for C7 at a capability returning no results. -/
theorem web_search_limit_and_format_w :
    web_search (fun _ _ => Except.ok ([] : List SearchResult)) "hello" =
      "No search results found." :=
  ((web_search_limit_and_format (fun _ _ => Except.ok []) "hello").2.1) rfl
